import Mathlib

/-!
Shallow embedding of the merge4appstore reconciliation scripts.

Modelled source files:
* `src/lib/sync.js` — the modular ReleaseSync reconciler `runReleaseSync`;
* `src/unnamed/part_000` — the standalone `ios-release-sync` script: its
  `main` flow, `GitOperations.resolveRef`, and its own `acquireLock` /
  `releaseLock`;
* `src/unnamed/part_002` — `GitOperations` (same `resolveRef` as part_000);
* `src/lib/app-store-connect.js` — `generateToken`, `derToRaw`, `request`,
  `calculateBackoff`, `getBuildCommitSHA`;
* `src/lib/lock.js` — `acquireLock`, `releaseLock`.

External collaborators (Node's `fetch`, `fs`, `crypto`, `JSON.stringify`,
`Buffer` base64url, the `git`/`gh` subprocesses, `Math.random`, `Date.now`)
are modelled as oracle parameters or explicit inputs; everything else is
translated statement by statement from the JavaScript source.
-/

namespace Merge4

/-! ## String helpers (JS regular expressions and truthiness) -/

/-- Split a character list at every '.' character, keeping empty segments,
like JavaScript `s.split('.')`. -/
def splitDots : List Char → List (List Char)
  | [] => [[]]
  | c :: cs =>
    if c = '.' then [] :: splitDots cs
    else
      match splitDots cs with
      | g :: gs => (c :: g) :: gs
      | [] => [[c]]

/-- A nonempty all-digit segment, i.e. one `\d+` group. -/
def digitSeg (g : List Char) : Bool :=
  !g.isEmpty && g.all Char.isDigit

/-- The test `/^\d+\.\d+(\.\d+)?$/.test(s)` from sync.js line 18 and
part_000 line 486: two or three dot-separated nonempty digit groups. -/
def versionValid (s : String) : Bool :=
  match splitDots s.toList with
  | [a, b] => digitSeg a && digitSeg b
  | [a, b, c] => digitSeg a && digitSeg b && digitSeg c
  | _ => false

/-- One hexadecimal character, as in the character class `[0-9a-fA-F]`. -/
def isHexChar (c : Char) : Bool :=
  c.isDigit || ('a' ≤ c && c ≤ 'f') || ('A' ≤ c && c ≤ 'F')

/-- The test `/^[0-9a-fA-F]{40}$/.test(s)` from part_000 line 518: a full
40-character commit hash. -/
def isFullHex (s : String) : Bool :=
  s.toList.length = 40 && s.toList.all isHexChar

/-- JavaScript truthiness of an optional string: `undefined`/`null` and the
empty string are falsy. -/
def truthy : Option String → Bool
  | some s => s ≠ ""
  | none => false

/-! ## ReleaseSync observable events

A run is modelled as the list of calls it makes to its collaborators
(App Store Connect client, git/tag store, GitHub client), together with how
the process exits.  Mutating calls are tag creation, tag push and PR
commenting, matching the side effects executed by the scripts. -/

inductive Ev where
  | getLive
  | validate (v : String)
  | fetchRepo
  | tagQuery (name : String)
  | commitLookup (bn : String)
  | resolveRefCall (r : String)
  | commitCheck (sha : String)
  | commitMsg (sha : String)
  | createTag (name sha msg : String)
  | pushTag (name : String)
  | findPR (sha : String)
  | addComment (pr body : String)
deriving DecidableEq

inductive ExitStatus where
  | success
  | fatal
deriving DecidableEq

structure RunResult where
  trace : List Ev
  outcome : ExitStatus
deriving DecidableEq

/-- A mutating call: tag creation, tag push, or PR comment. -/
def mutating : Ev → Bool
  | .createTag _ _ _ => true
  | .pushTag _ => true
  | .addComment _ _ => true
  | _ => false

structure LiveStatus where
  live : Bool
  version : String
  buildNumber : String

structure CommitInfo where
  found : Bool
  commitSha : Option String
  workflowId : Option String
  workflowName : Option String
deriving DecidableEq

/-- Oracles for one ReleaseSync run: the live-build query result, the tag
store, the commit lookup result for the live build number, git rev-parse,
commit existence/message, and the GitHub PR lookup. -/
structure SyncEnv where
  liveStatus : LiveStatus
  tagExists : String → Bool
  commitInfo : CommitInfo
  revParse : String → Option String
  commitExists : String → Bool
  findPR : String → Option String
  dryRun : Bool

/-- Canonical tag name `v<version>-<buildNumber>` (sync.js line 24,
part_000 line 492). -/
def tagNameOf (v bn : String) : String := "v" ++ v ++ "-" ++ bn

/-- Annotated tag message (sync.js line 61, part_000 line 546). -/
def tagMsg (v bn : String) : String :=
  "Production release: version " ++ v ++ ", build " ++ bn

/-- Release comment body (sync.js line 72, part_000 line 561). -/
def prComment (bn v : String) : String :=
  "Build #" ++ bn ++ " has been released to the App Store as version " ++ v ++ "."

/-- The modular ReleaseSync reconciler, `runReleaseSync` from
src/lib/sync.js.  Every early return leaves the process exiting 0 (the
function only logs and returns); there is no ref resolution step and no tag
push. -/
def runReleaseSync (env : SyncEnv) : RunResult :=
  if env.liveStatus.live = false ∨ env.liveStatus.buildNumber = "0" then
    ⟨[.getLive], .success⟩
  else if versionValid env.liveStatus.version = false then
    ⟨[.getLive, .validate env.liveStatus.version], .success⟩
  else if env.tagExists (tagNameOf env.liveStatus.version env.liveStatus.buildNumber) then
    ⟨[.getLive, .validate env.liveStatus.version,
      .tagQuery (tagNameOf env.liveStatus.version env.liveStatus.buildNumber)], .success⟩
  else if env.commitInfo.found = false ∨ truthy env.commitInfo.commitSha = false then
    ⟨[.getLive, .validate env.liveStatus.version,
      .tagQuery (tagNameOf env.liveStatus.version env.liveStatus.buildNumber),
      .commitLookup env.liveStatus.buildNumber], .success⟩
  else if env.commitExists (env.commitInfo.commitSha.getD "") = false then
    ⟨[.getLive, .validate env.liveStatus.version,
      .tagQuery (tagNameOf env.liveStatus.version env.liveStatus.buildNumber),
      .commitLookup env.liveStatus.buildNumber,
      .commitCheck (env.commitInfo.commitSha.getD "")], .success⟩
  else if env.dryRun then
    ⟨[.getLive, .validate env.liveStatus.version,
      .tagQuery (tagNameOf env.liveStatus.version env.liveStatus.buildNumber),
      .commitLookup env.liveStatus.buildNumber,
      .commitCheck (env.commitInfo.commitSha.getD ""),
      .commitMsg (env.commitInfo.commitSha.getD ""),
      .findPR (env.commitInfo.commitSha.getD "")], .success⟩
  else
    match env.findPR (env.commitInfo.commitSha.getD "") with
    | some pr =>
      ⟨[.getLive, .validate env.liveStatus.version,
        .tagQuery (tagNameOf env.liveStatus.version env.liveStatus.buildNumber),
        .commitLookup env.liveStatus.buildNumber,
        .commitCheck (env.commitInfo.commitSha.getD ""),
        .commitMsg (env.commitInfo.commitSha.getD ""),
        .createTag (tagNameOf env.liveStatus.version env.liveStatus.buildNumber)
          (env.commitInfo.commitSha.getD "")
          (tagMsg env.liveStatus.version env.liveStatus.buildNumber),
        .findPR (env.commitInfo.commitSha.getD ""),
        .addComment pr (prComment env.liveStatus.buildNumber env.liveStatus.version)],
       .success⟩
    | none =>
      ⟨[.getLive, .validate env.liveStatus.version,
        .tagQuery (tagNameOf env.liveStatus.version env.liveStatus.buildNumber),
        .commitLookup env.liveStatus.buildNumber,
        .commitCheck (env.commitInfo.commitSha.getD ""),
        .commitMsg (env.commitInfo.commitSha.getD ""),
        .createTag (tagNameOf env.liveStatus.version env.liveStatus.buildNumber)
          (env.commitInfo.commitSha.getD "")
          (tagMsg env.liveStatus.version env.liveStatus.buildNumber),
        .findPR (env.commitInfo.commitSha.getD "")],
       .success⟩

/-- `GitOperations.resolveRef` from part_000 lines 315-325 / part_002 lines
38-48: `git rev-parse <ref>` first, falling back to
`git rev-parse origin/<ref>`, `null` if both fail.  The `revParse` oracle
stands for one `git rev-parse` subprocess call. -/
def gitResolveRef (revParse : String → Option String) (ref : String) : Option String :=
  match revParse ref with
  | some v => some v
  | none => revParse ("origin/" ++ ref)

/-- Steps 5-7 of part_000's `main` (lines 531-566): commit existence check
(fatal when absent), commit message, tag create + push (skipped in dry run),
PR lookup and comment. -/
def mainSyncTail (env : SyncEnv) (v bn tn sha : String) (base : List Ev) : RunResult :=
  if env.commitExists sha = false then
    ⟨base ++ [.commitCheck sha], .fatal⟩
  else if env.dryRun then
    ⟨base ++ [.commitCheck sha, .commitMsg sha, .findPR sha], .success⟩
  else
    match env.findPR sha with
    | some pr =>
      ⟨base ++ [.commitCheck sha, .commitMsg sha,
        .createTag tn sha (tagMsg v bn), .pushTag tn, .findPR sha,
        .addComment pr (prComment bn v)], .success⟩
    | none =>
      ⟨base ++ [.commitCheck sha, .commitMsg sha,
        .createTag tn sha (tagMsg v bn), .pushTag tn, .findPR sha], .success⟩

/-- The standalone `ios-release-sync` script's `main` flow from part_000
lines 473-570: unlike `runReleaseSync`, an invalid version string and a
missing commit are fatal (`process.exit(1)`), the repository is fetched
before the tag check, a non-40-hex commit reference is resolved via
`GitOperations.resolveRef`, and a created tag is pushed. -/
def mainSync (env : SyncEnv) : RunResult :=
  if env.liveStatus.live = false ∨ env.liveStatus.buildNumber = "0" then
    ⟨[.getLive], .success⟩
  else if versionValid env.liveStatus.version = false then
    ⟨[.getLive, .validate env.liveStatus.version], .fatal⟩
  else if env.tagExists (tagNameOf env.liveStatus.version env.liveStatus.buildNumber) then
    ⟨[.getLive, .validate env.liveStatus.version, .fetchRepo,
      .tagQuery (tagNameOf env.liveStatus.version env.liveStatus.buildNumber)], .success⟩
  else if env.commitInfo.found = false ∨ truthy env.commitInfo.commitSha = false then
    ⟨[.getLive, .validate env.liveStatus.version, .fetchRepo,
      .tagQuery (tagNameOf env.liveStatus.version env.liveStatus.buildNumber),
      .commitLookup env.liveStatus.buildNumber], .success⟩
  else if isFullHex (env.commitInfo.commitSha.getD "") then
    mainSyncTail env env.liveStatus.version env.liveStatus.buildNumber
      (tagNameOf env.liveStatus.version env.liveStatus.buildNumber)
      (env.commitInfo.commitSha.getD "")
      [.getLive, .validate env.liveStatus.version, .fetchRepo,
       .tagQuery (tagNameOf env.liveStatus.version env.liveStatus.buildNumber),
       .commitLookup env.liveStatus.buildNumber]
  else
    match gitResolveRef env.revParse (env.commitInfo.commitSha.getD "") with
    | none =>
      ⟨[.getLive, .validate env.liveStatus.version, .fetchRepo,
        .tagQuery (tagNameOf env.liveStatus.version env.liveStatus.buildNumber),
        .commitLookup env.liveStatus.buildNumber,
        .resolveRefCall (env.commitInfo.commitSha.getD "")], .success⟩
    | some r =>
      mainSyncTail env env.liveStatus.version env.liveStatus.buildNumber
        (tagNameOf env.liveStatus.version env.liveStatus.buildNumber) r
        [.getLive, .validate env.liveStatus.version, .fetchRepo,
         .tagQuery (tagNameOf env.liveStatus.version env.liveStatus.buildNumber),
         .commitLookup env.liveStatus.buildNumber,
         .resolveRefCall (env.commitInfo.commitSha.getD "")]

/-! ## TokenSigner: `generateToken` (app-store-connect.js lines 25-61)

`JSON.stringify`, base64url and the ECDSA signing primitive are Node
built-ins, abstracted as parameters: `signInput iat exp` stands for the
string `headerB64 + "." + payloadB64` built from the fixed header and the
payload with those `iat`/`exp` values, and `signBase64 s` stands for
base64url(derToRaw(sign(s))). -/

structure TokenState where
  token : Option String
  tokenExpiry : Option Int
deriving DecidableEq

/-- The cache test `this.token && this.tokenExpiry && now < this.tokenExpiry - 60`
(line 29), including JavaScript truthiness of the two cached fields. -/
def tokenAlive (st : TokenState) (now : Int) : Bool :=
  match st.token, st.tokenExpiry with
  | some t, some te => t ≠ "" && te ≠ 0 && now < te - 60
  | _, _ => false

/-- `generateToken` over an explicit cache state, taking the current clock
`Date.now()` in milliseconds.  Returns the token and the updated state. -/
def generateToken (signInput : Int → Int → String) (signBase64 : String → String)
    (nowMs : Nat) (st : TokenState) : String × TokenState :=
  let now : Int := (nowMs / 1000 : Nat)
  let expiry : Int := now + 20 * 60
  if tokenAlive st now then
    (st.token.getD "", st)
  else
    (signInput now expiry ++ "." ++ signBase64 (signInput now expiry),
     ⟨some (signInput now expiry ++ "." ++ signBase64 (signInput now expiry)),
      some expiry⟩)

/-! ## `derToRaw` (app-store-connect.js lines 63-87)

Buffers are byte lists.  `der[i]` on a Node `Buffer` yields `undefined`past
the end, so reads are `Option`-valued; the translation follows the JS
semantics statement by statement, including the two places where an
out-of-range read does NOT throw: an undefined `sLength` makes the final
`slice` empty (its end index is `NaN`), and an overlong declared length
silently truncates a `slice`. -/

/-- The loop `while (x.length > 32 && x[0] === 0) x = x.slice(1);`. -/
def trimLoop : List Nat → List Nat
  | [] => []
  | b :: bs => if b = 0 ∧ bs.length + 1 > 32 then trimLoop bs else b :: bs

/-- The loop `while (x.length < 32) x = Buffer.concat([zero, x]);`:
left-pad with zero bytes up to 32. -/
def pad32 (bs : List Nat) : List Nat :=
  List.replicate (32 - bs.length) 0 ++ bs

/-- `derToRaw`.  `.error` is the `throw new Error('Invalid DER signature')`
paths; the offset bookkeeping mirrors the JS `offset++` arithmetic. -/
def derToRaw (der : List Nat) : Except String (List Nat) :=
  if der[0]? ≠ some 0x30 then .error "Invalid DER signature"
  else
    -- `length & 0x80` with an undefined length byte is `NaN & 0x80 = 0`.
    match
      (match der[1]? with
       | some l => if l.land 0x80 ≠ 0 then 2 + l.land 0x7f else 2
       | none => 2 : Nat) with
    | off =>
      if der[off]? ≠ some 0x02 then .error "Invalid DER signature"
      else
        match der[off + 1]? with
        | none =>
          -- rLength is undefined: `offset += rLength` is NaN, and the next
          -- marker check reads der[NaN] = undefined ≠ 0x02, so it throws.
          .error "Invalid DER signature"
        | some rLen =>
          if der[off + 2 + rLen]? ≠ some 0x02 then .error "Invalid DER signature"
          else
            .ok (pad32 (trimLoop ((der.drop (off + 2)).take rLen)) ++
                 pad32 (trimLoop
                   (match der[off + 2 + rLen + 1]? with
                    | some sLen => (der.drop (off + 2 + rLen + 2)).take sLen
                    | none => [])))

/-- Big-endian value of a byte string. -/
def beVal (bs : List Nat) : Nat :=
  bs.foldl (fun a b => a * 256 + b) 0

/-- Short-form DER encoding of two integers with content bytes `rB`, `sB`:
`30 len 02 |r| rB 02 |s| sB`. -/
def derEncode (rB sB : List Nat) : List Nat :=
  0x30 :: (4 + rB.length + sB.length) :: 0x02 :: rB.length :: (rB ++ 0x02 :: sB.length :: sB)

/-- Minimally encoded positive DER integer content: nonempty, a leading zero
byte only before a byte with the high bit set, otherwise high bit clear. -/
def validPosIntBytes : List Nat → Bool
  | [] => false
  | [b] => decide (b < 128)
  | 0 :: b :: _ => decide (128 ≤ b)
  | b :: _ :: _ => decide (b < 128)

/-- Checker for a well-formed two-integer DER ECDSA signature over P-256:
correct markers, consistent lengths, byte-valued entries, minimally encoded
positive integers below 2^256. -/
def wellFormedDer (der : List Nat) : Bool :=
  match der with
  | 0x30 :: l :: rest =>
    decide (l = rest.length) && decide (l < 128) && (0x30 :: l :: rest).all (· < 256) &&
    (match rest with
     | 0x02 :: rl :: tail =>
       decide ((tail.take rl).length = rl) &&
       validPosIntBytes (tail.take rl) &&
       decide (rl ≤ 33) && (decide (rl ≤ 32) || decide ((tail.take rl).head? = some 0)) &&
       (match tail.drop rl with
        | 0x02 :: sl :: sBytes =>
          decide (sl = sBytes.length) && validPosIntBytes sBytes &&
          decide (sl ≤ 33) && (decide (sl ≤ 32) || decide (sBytes.head? = some 0))
        | _ => false)
     | _ => false)
  | _ => false

/-! ## ResilientHTTPClient: `request` and `calculateBackoff`
(app-store-connect.js lines 89-160)

The `fetch` responses are an oracle indexed by attempt number, and
`Math.random()` an oracle yielding a rational in [0,1).  Delays are exact
rationals.  Token generation before each attempt does not influence the
control flow and is not recorded.  The fuel argument is the remaining
iterations of `for (attempt = 0; attempt <= maxRetries; attempt++)`; the
fuel-exhausted case is the final `throw lastError`. -/

structure RetryOpts where
  maxRetries : Nat
  initialDelayMs : ℚ
  maxDelayMs : ℚ
  retryableStatusCodes : List Nat

/-- `DEFAULT_RETRY_OPTIONS` (lines 4-9). -/
def defaultRetryOptions : RetryOpts :=
  ⟨3, 1000, 10000, [429, 500, 502, 503, 504]⟩

/-- `calculateBackoff` (lines 156-160): exponential delay plus up to 30%
jitter, capped at `maxDelayMs`; `randv` is the `Math.random()` draw. -/
def calculateBackoff (randv : ℚ) (attempt : Nat) (opts : RetryOpts) : ℚ :=
  min (opts.initialDelayMs * 2 ^ attempt + randv * (3 / 10) * (opts.initialDelayMs * 2 ^ attempt))
    opts.maxDelayMs

structure HttpResp (α : Type) where
  status : Nat
  retryAfter : Int
  body : α
  errDetail : String
deriving DecidableEq

inductive ReqOutcome (α : Type) where
  | ok (v : Option α)
  | apiError (status : Nat) (detail : String)
  | exhausted
deriving DecidableEq

/-- The retry loop of `request` (lines 94-153), also returning the list of
sleep durations it performed.  Branch order follows the source: 204, then
429 with `Retry-After`, then the retryable status set, then the
`response.ok` check. -/
def requestFuel (opts : RetryOpts) (responses : Nat → HttpResp α) (randv : Nat → ℚ) :
    Nat → Nat → List ℚ → ReqOutcome α × List ℚ
  | 0, _, delays => (.exhausted, delays)
  | fuel + 1, attempt, delays =>
    if (responses attempt).status = 204 then (.ok none, delays)
    else if (responses attempt).status = 429 ∧ attempt < opts.maxRetries then
      requestFuel opts responses randv fuel (attempt + 1)
        (delays ++ [if (responses attempt).retryAfter > 0
                    then ((responses attempt).retryAfter : ℚ) * 1000
                    else calculateBackoff (randv attempt) attempt opts])
    else if (responses attempt).status ∈ opts.retryableStatusCodes ∧ attempt < opts.maxRetries then
      requestFuel opts responses randv fuel (attempt + 1)
        (delays ++ [calculateBackoff (randv attempt) attempt opts])
    else if ¬ (200 ≤ (responses attempt).status ∧ (responses attempt).status < 300) then
      (.apiError (responses attempt).status (responses attempt).errDetail, delays)
    else (.ok (some (responses attempt).body), delays)

/-- `request` with a given policy: run the loop from attempt 0. -/
def request (opts : RetryOpts) (responses : Nat → HttpResp α) (randv : Nat → ℚ) :
    ReqOutcome α × List ℚ :=
  requestFuel opts responses randv (opts.maxRetries + 1) 0 []

/-- The window `[previous*2*0.7, previous*2*1.3]` of the retry-delay claim. -/
def withinBackoffWindow (prev cur : ℚ) : Prop :=
  prev * 2 * (7 / 10) ≤ cur ∧ cur ≤ prev * 2 * (13 / 10)

/-! ## MutualExclusionLock (src/lib/lock.js and part_000 lines 397-426)

The lock file is `Option LockFS` (present or absent), with its content and
mtime; `fs` oracles are resolved against that state. -/

structure LockFS where
  content : String
  mtimeMs : Int
deriving DecidableEq

def lockMaxAgeMs : Int := 30 * 60 * 1000

inductive LockEv where
  | removeStale
  | createFile
deriving DecidableEq

structure AcquireResult where
  ok : Bool
  fs : Option LockFS
  evs : List LockEv
deriving DecidableEq

/-- `acquireLock` from src/lib/lock.js lines 8-38: remove the lock file if
its age exceeds 30 minutes, then attempt an atomic create-if-absent
(`wx`); `EEXIST` yields false. -/
def acquireLock (nowMs : Int) (pid : String) (fs : Option LockFS) : AcquireResult :=
  match fs with
  | some lf =>
    if nowMs - lf.mtimeMs > lockMaxAgeMs then
      ⟨true, some ⟨pid, nowMs⟩, [.removeStale, .createFile]⟩
    else
      ⟨false, some lf, []⟩
  | none => ⟨true, some ⟨pid, nowMs⟩, [.createFile]⟩

/-- JS `String.prototype.trim` over the leading/trailing whitespace that can
occur in a pid file. -/
def jsTrim (s : String) : String :=
  ⟨((s.toList.dropWhile fun c => c = ' ' ∨ c = '\n' ∨ c = '\t' ∨ c = '\r').reverse.dropWhile
      fun c => c = ' ' ∨ c = '\n' ∨ c = '\t' ∨ c = '\r').reverse⟩

/-- `releaseLock` from src/lib/lock.js lines 40-52: read the file, delete it
only when `content.trim() === process.pid.toString()`; a missing file
(ENOENT) is ignored. -/
def releaseLock (pid : String) (fs : Option LockFS) : Option LockFS :=
  match fs with
  | none => none
  | some lf => if jsTrim lf.content = pid then none else some lf

/-- `releaseLock` from part_000 lines 418-426: delete the lock file whenever
it exists, with no owner check. -/
def releaseLockStandalone (fs : Option LockFS) : Option LockFS :=
  match fs with
  | some _ => none
  | none => none

/-! ## `getBuildCommitSHA` (app-store-connect.js lines 329-363)

CI products, workflows and build runs are the already-fetched JSON data;
the scan returns at the first run whose number matches. -/

inductive SourceCommit where
  | str (s : String)
  | obj (commitSha hash canonicalHash id : Option String)
  | nullVal
  | undef
deriving DecidableEq

/-- JavaScript `a || b` on optional strings: falsy (absent or empty) falls
through. -/
def jsOrStr (a b : Option String) : Option String :=
  match a with
  | some s => if s = "" then b else some s
  | none => b

/-- The extraction `sourceCommit.commitSha || sourceCommit.hash ||
sourceCommit.canonicalHash || sourceCommit.id` guarded by the typeof checks
(lines 345-349). -/
def commitShaOf : SourceCommit → Option String
  | .str s => some s
  | .obj c h ch i => jsOrStr c (jsOrStr h (jsOrStr ch i))
  | .nullVal => none
  | .undef => none

structure CIRun where
  number : Option String
  sourceCommit : SourceCommit
deriving DecidableEq

structure CIWorkflow where
  id : String
  name : Option String
  runs : List CIRun

structure CIProduct where
  workflows : List CIWorkflow

/-- `run.attributes?.number?.toString() === buildNumber.toString()`. -/
def findRunInRuns (bn : String) (runs : List CIRun) : Option CIRun :=
  runs.find? fun r => r.number == some bn

def findInWorkflows (bn : String) : List CIWorkflow → Option (CIRun × String × Option String)
  | [] => none
  | w :: ws =>
    match findRunInRuns bn w.runs with
    | some r => some (r, w.id, w.name)
    | none => findInWorkflows bn ws

/-- First matching run in product → workflow → run order, with its
workflow's id and name. -/
def findBuildRun : List CIProduct → String → Option (CIRun × String × Option String)
  | [], _ => none
  | p :: ps, bn =>
    match findInWorkflows bn p.workflows with
    | some x => some x
    | none => findBuildRun ps bn

/-- `getBuildCommitSHA`: `{found: true, commitSha, workflowId, workflowName}`
at the first matching run, else `{found: false}`. -/
def getBuildCommitSHA (ps : List CIProduct) (bn : String) : CommitInfo :=
  match findBuildRun ps bn with
  | some (r, wid, wname) => ⟨true, commitShaOf r.sourceCommit, some wid, wname⟩
  | none => ⟨false, none, none, none⟩

/-! ## Concrete environments used by witnesses and counterexamples -/

/-- Live build 1400 of version 1.4 whose tag already exists. -/
def envTagged : SyncEnv :=
  ⟨⟨true, "1.4", "1400"⟩, fun _ => true, ⟨false, none, none, none⟩,
   fun _ => none, fun _ => false, fun _ => none, false⟩

/-- No live production build. -/
def envNoLive : SyncEnv :=
  ⟨⟨false, "", "0"⟩, fun _ => false, ⟨false, none, none, none⟩,
   fun _ => none, fun _ => false, fun _ => none, false⟩

/-- Live build whose version string "1" fails the version regex. -/
def envBadVersion : SyncEnv :=
  ⟨⟨true, "1", "5"⟩, fun _ => true, ⟨false, none, none, none⟩,
   fun _ => none, fun _ => false, fun _ => none, false⟩

/-- Live build 1400 whose commit lookup yields the symbolic reference
"develop" rather than a 40-hex hash; the commit-existence oracle accepts
everything, no tag exists yet. -/
def envRawRef : SyncEnv :=
  ⟨⟨true, "1.4", "1400"⟩, fun _ => false, ⟨true, some "develop", none, none⟩,
   fun _ => none, fun _ => true, fun _ => none, false⟩

/-! ## Claim C1 -/

/-- Claim C1: for every live (version, buildNumber) pair whose canonical tag
name `v<version>-<buildNumber>` the tag store reports as already existing
when the run queries it, a ReleaseSync run — both the modular
`runReleaseSync` and the standalone script's flow — performs zero mutating
calls (no tag creation, no push, no comment) and exits successfully. -/
theorem c1_tag_exists_idempotent (env : SyncEnv)
    (h1 : env.liveStatus.live = true) (h2 : env.liveStatus.buildNumber ≠ "0")
    (h3 : versionValid env.liveStatus.version = true)
    (h4 : env.tagExists (tagNameOf env.liveStatus.version env.liveStatus.buildNumber) = true) :
    ((runReleaseSync env).trace.filter mutating = [] ∧
     (runReleaseSync env).outcome = .success) ∧
    ((mainSync env).trace.filter mutating = [] ∧
     (mainSync env).outcome = .success) := by
  constructor <;>
    simp [runReleaseSync, mainSync, h1, h2, h3, h4, mutating, List.filter]

/-- Witness for C1 at a concrete environment with an existing tag. -/
theorem c1_tag_exists_idempotent_witness :
    (envTagged.liveStatus.live = true) ∧ (envTagged.liveStatus.buildNumber ≠ "0") ∧
    (versionValid envTagged.liveStatus.version = true) ∧
    (envTagged.tagExists (tagNameOf envTagged.liveStatus.version envTagged.liveStatus.buildNumber) = true) ∧
    (((runReleaseSync envTagged).trace.filter mutating = [] ∧
      (runReleaseSync envTagged).outcome = .success) ∧
     ((mainSync envTagged).trace.filter mutating = [] ∧
      (mainSync envTagged).outcome = .success)) :=
  ⟨rfl, by decide, by decide, rfl,
   c1_tag_exists_idempotent envTagged rfl (by decide) (by decide) rfl⟩

/-! ## Claim C2 -/

/-- Claim C2: for every live-build query result with `live = false` or the
sentinel build number "0", both ReleaseSync implementations stop right after
the live query — no version validation, no tag lookup, no mutation — and
return as a success. -/
theorem c2_sentinel_early_exit (env : SyncEnv)
    (h : env.liveStatus.live = false ∨ env.liveStatus.buildNumber = "0") :
    runReleaseSync env = ⟨[.getLive], .success⟩ ∧
    mainSync env = ⟨[.getLive], .success⟩ := by
  constructor
  · unfold runReleaseSync
    rw [if_pos h]
  · unfold mainSync
    rw [if_pos h]

/-- Witness for C2 at a concrete environment with no live build. -/
theorem c2_sentinel_early_exit_witness :
    (envNoLive.liveStatus.live = false ∨ envNoLive.liveStatus.buildNumber = "0") ∧
    (runReleaseSync envNoLive = ⟨[.getLive], .success⟩ ∧
     mainSync envNoLive = ⟨[.getLive], .success⟩) :=
  ⟨Or.inl rfl, c2_sentinel_early_exit envNoLive (Or.inl rfl)⟩

/-! ## Claim C3 -/

/-- Counterexample to claim C3 as stated: on the modular reconciler
`runReleaseSync` (src/lib/sync.js lines 17-21) an invalid live version
string ("1") aborts before any tag lookup but the run returns as a success
— it is not treated as a fatal nonzero exit. -/
theorem c3_invalid_version_counterexample :
    versionValid "1" = false ∧
    runReleaseSync envBadVersion = ⟨[.getLive, .validate "1"], .success⟩ := by
  decide

/-- Claim C3 as amended: for every live version string failing
`^\d+\.\d+(\.\d+)?$`, ReleaseSync aborts immediately after validation, before
any tag lookup and without any mutating call; the standalone script treats
this as a fatal input-validation error (`process.exit(1)`), while the modular
reconciler logs the error and returns as a success. -/
theorem c3_invalid_version_aborts (env : SyncEnv)
    (h1 : env.liveStatus.live = true) (h2 : env.liveStatus.buildNumber ≠ "0")
    (h3 : versionValid env.liveStatus.version = false) :
    runReleaseSync env = ⟨[.getLive, .validate env.liveStatus.version], .success⟩ ∧
    mainSync env = ⟨[.getLive, .validate env.liveStatus.version], .fatal⟩ := by
  constructor <;> simp [runReleaseSync, mainSync, h1, h2, h3]

/-- Witness for the amended C3 at a concrete environment. -/
theorem c3_invalid_version_aborts_witness :
    (envBadVersion.liveStatus.live = true) ∧ (envBadVersion.liveStatus.buildNumber ≠ "0") ∧
    (versionValid envBadVersion.liveStatus.version = false) ∧
    (runReleaseSync envBadVersion = ⟨[.getLive, .validate envBadVersion.liveStatus.version], .success⟩ ∧
     mainSync envBadVersion = ⟨[.getLive, .validate envBadVersion.liveStatus.version], .fatal⟩) :=
  ⟨rfl, by decide, by decide,
   c3_invalid_version_aborts envBadVersion rfl (by decide) (by decide)⟩

/-! ## Claim C8 -/

/-- Claim C8: `acquireLock` while an unexpired (age at most 30 minutes) lock
file exists returns false without touching the file; when the age exceeds
30 minutes it removes the stale file first and then succeeds, creating a new
lock owned by the caller. -/
theorem c8_lock_acquire (now : Int) (pid : String) (lf : LockFS) :
    (now - lf.mtimeMs ≤ lockMaxAgeMs →
       acquireLock now pid (some lf) = ⟨false, some lf, []⟩) ∧
    (now - lf.mtimeMs > lockMaxAgeMs →
       acquireLock now pid (some lf) = ⟨true, some ⟨pid, now⟩, [.removeStale, .createFile]⟩) := by
  constructor
  · intro h
    simp only [acquireLock]
    rw [if_neg (not_lt.mpr h)]
  · intro h
    simp only [acquireLock]
    rw [if_pos h]

/-- Witness for C8: a stale lock (age 2000000 ms > 30 min) is removed and
re-acquired by pid 77. -/
theorem c8_lock_acquire_witness :
    ((2000000 : Int) - (0 : Int) > lockMaxAgeMs) ∧
    acquireLock 2000000 "77" (some ⟨"5", 0⟩) =
      ⟨true, some ⟨"77", 2000000⟩, [.removeStale, .createFile]⟩ :=
  ⟨by decide,
   (c8_lock_acquire 2000000 "77" ⟨"5", 0⟩).2 (by decide)⟩

/-! ## Claim C9 -/

/-- Counterexample to claim C9 as stated: the standalone script's
`releaseLock` (part_000 lines 418-426) removes the lock file
unconditionally, so a caller whose pid is "111" removes a lock recorded as
owned by process "999". -/
theorem c9_release_counterexample :
    releaseLockStandalone (some ⟨"999", 0⟩) = none ∧ jsTrim "999" ≠ "111" := by
  decide

/-- Claim C9 as amended: the modular lock module's `releaseLock` deletes the
lock file only when the recorded owner pid matches the caller's pid — it
never removes a lock recorded as owned by a different process — while the
standalone script's `releaseLock` removes any existing lock file without an
owner check. -/
theorem c9_release_owner_check (pid : String) (lf : LockFS) :
    (jsTrim lf.content ≠ pid → releaseLock pid (some lf) = some lf) ∧
    (jsTrim lf.content = pid → releaseLock pid (some lf) = none) ∧
    (∀ fs : Option LockFS, releaseLockStandalone fs = none) := by
  refine ⟨fun h => ?_, fun h => ?_, fun fs => ?_⟩
  · simp only [releaseLock]
    rw [if_neg h]
  · simp only [releaseLock]
    rw [if_pos h]
  · cases fs <;> rfl

/-- Witness for the amended C9: pid 111 does not remove a lock owned by 999. -/
theorem c9_release_owner_check_witness :
    (jsTrim "999" ≠ "111") ∧ releaseLock "111" (some ⟨"999", 0⟩) = some ⟨"999", 0⟩ :=
  ⟨by decide,
   (c9_release_owner_check "111" ⟨"999", 0⟩).1 (by decide)⟩

/-! ## Claim C10 -/

/-- Claim C10: when the matching CI build run's `sourceCommit` is an object
with none of the candidate fields (`commitSha`, `hash`, `canonicalHash`,
`id`), `getBuildCommitSHA` returns found with a null commit sha, and
`runReleaseSync` treats that result exactly like a not-found result: the two
runs are identical, they exit successfully and perform no mutating call. -/
theorem c10_empty_source_commit (ps : List CIProduct) (bn : String) (run : CIRun)
    (wid : String) (wname : Option String) (env : SyncEnv)
    (hfind : findBuildRun ps bn = some (run, wid, wname))
    (hsrc : run.sourceCommit = .obj none none none none) :
    getBuildCommitSHA ps bn = ⟨true, none, some wid, wname⟩ ∧
    runReleaseSync { env with commitInfo := getBuildCommitSHA ps bn } =
      runReleaseSync { env with commitInfo := ⟨false, none, none, none⟩ } ∧
    ((runReleaseSync { env with commitInfo := getBuildCommitSHA ps bn }).trace.filter
        mutating = [] ∧
     (runReleaseSync { env with commitInfo := getBuildCommitSHA ps bn }).outcome
       = .success) := by
  have h0 : getBuildCommitSHA ps bn = ⟨true, none, some wid, wname⟩ := by
    simp only [getBuildCommitSHA, hfind]
    rw [hsrc]
    rfl
  refine ⟨h0, ?_, ?_⟩ <;> rw [h0] <;>
  · by_cases hA : env.liveStatus.live = false ∨ env.liveStatus.buildNumber = "0"
    · simp [runReleaseSync, hA, mutating]
    · by_cases hB : versionValid env.liveStatus.version = false
      · simp [runReleaseSync, hA, hB, mutating]
      · by_cases hC :
          env.tagExists (tagNameOf env.liveStatus.version env.liveStatus.buildNumber) = true
        · simp [runReleaseSync, hA, hB, hC, mutating]
        · simp [runReleaseSync, hA, hB, hC, truthy, mutating, List.filter]

/-- Concrete CI data with a single matching run carrying an empty
source-commit object. -/
def ciEmptyCommit : List CIProduct :=
  [⟨[⟨"wf1", some "Publish to App Store", [⟨some "1400", .obj none none none none⟩]⟩]⟩]

/-- Witness for C10 on concrete CI data and environment. -/
theorem c10_empty_source_commit_witness :
    (findBuildRun ciEmptyCommit "1400"
       = some (⟨some "1400", .obj none none none none⟩, "wf1", some "Publish to App Store")) ∧
    ((⟨some "1400", .obj none none none none⟩ : CIRun).sourceCommit
       = .obj none none none none) ∧
    (getBuildCommitSHA ciEmptyCommit "1400"
       = ⟨true, none, some "wf1", some "Publish to App Store"⟩ ∧
     runReleaseSync { envRawRef with commitInfo := getBuildCommitSHA ciEmptyCommit "1400" } =
       runReleaseSync { envRawRef with commitInfo := ⟨false, none, none, none⟩ } ∧
     ((runReleaseSync { envRawRef with
          commitInfo := getBuildCommitSHA ciEmptyCommit "1400" }).trace.filter
         mutating = [] ∧
      (runReleaseSync { envRawRef with
          commitInfo := getBuildCommitSHA ciEmptyCommit "1400" }).outcome = .success)) :=
  ⟨by decide, rfl,
   c10_empty_source_commit ciEmptyCommit "1400" ⟨some "1400", .obj none none none none⟩
     "wf1" (some "Publish to App Store") envRawRef (by decide) rfl⟩

/-! ## Claim C5 -/

/-- Claim C5: while more than 60 seconds of validity remain on the cached
token, `generateToken` returns the byte-identical cached token on successive
calls without touching the state; with no cached token, or once within 60
seconds of the cached expiry, it produces a newly generated token whose
recorded expiry is 1200 seconds (20 minutes) from the current clock
second. -/
theorem c5_token_cache (signInput : Int → Int → String) (signBase64 : String → String)
    (t : String) (te : Int) (n1 n2 n3 : Nat) (st : TokenState)
    (h1 : t ≠ "") (h2 : te ≠ 0)
    (hw1 : ((n1 / 1000 : Nat) : Int) < te - 60)
    (hw2 : ((n2 / 1000 : Nat) : Int) < te - 60) :
    (generateToken signInput signBase64 n1 ⟨some t, some te⟩ = (t, ⟨some t, some te⟩) ∧
     (generateToken signInput signBase64 n2
        (generateToken signInput signBase64 n1 ⟨some t, some te⟩).2).1 = t) ∧
    (st.token = none →
       (generateToken signInput signBase64 n3 st).2.tokenExpiry
         = some (((n3 / 1000 : Nat) : Int) + 1200) ∧
       (generateToken signInput signBase64 n3 st).1
         = signInput ((n3 / 1000 : Nat) : Int) (((n3 / 1000 : Nat) : Int) + 20 * 60) ++ "." ++
           signBase64 (signInput ((n3 / 1000 : Nat) : Int)
             (((n3 / 1000 : Nat) : Int) + 20 * 60))) ∧
    (∀ te2 : Int, st.tokenExpiry = some te2 → te2 - 60 ≤ ((n3 / 1000 : Nat) : Int) →
       (generateToken signInput signBase64 n3 st).2.tokenExpiry
         = some (((n3 / 1000 : Nat) : Int) + 1200) ∧
       (generateToken signInput signBase64 n3 st).1
         = signInput ((n3 / 1000 : Nat) : Int) (((n3 / 1000 : Nat) : Int) + 20 * 60) ++ "." ++
           signBase64 (signInput ((n3 / 1000 : Nat) : Int)
             (((n3 / 1000 : Nat) : Int) + 20 * 60))) := by
  have haliveAt : ∀ now : Int, now < te - 60 → tokenAlive ⟨some t, some te⟩ now = true := by
    intro now hnow
    simp [tokenAlive, h1, h2, hnow]
  have halive1 := haliveAt _ hw1
  have halive2 := haliveAt _ hw2
  refine ⟨?_, ?_, ?_⟩
  · have e1 : generateToken signInput signBase64 n1 ⟨some t, some te⟩ = (t, ⟨some t, some te⟩) := by
      unfold generateToken
      rw [if_pos halive1]
      rfl
    refine ⟨e1, ?_⟩
    rw [e1]
    unfold generateToken
    rw [if_pos halive2]
    rfl
  · intro hnone
    have hdead : tokenAlive st ((n3 / 1000 : Nat) : Int) = false := by
      obtain ⟨tok, texp⟩ := st
      simp only at hnone
      subst hnone
      cases texp <;> rfl
    unfold generateToken
    rw [if_neg (by rw [hdead]; exact Bool.false_ne_true)]
    exact ⟨by norm_num, rfl⟩
  · intro te2 hte2 hlate
    have hdead : tokenAlive st ((n3 / 1000 : Nat) : Int) = false := by
      obtain ⟨tok, texp⟩ := st
      simp only at hte2
      subst hte2
      cases tok with
      | none => rfl
      | some t2 =>
        simp [tokenAlive]
        intro _ _
        omega
    unfold generateToken
    rw [if_neg (by rw [hdead]; exact Bool.false_ne_true)]
    exact ⟨by norm_num, rfl⟩

/-- Witness for C5: cached reuse at clock seconds 1 and 2 against expiry
10000, and regeneration from an empty cache at 5000 seconds. -/
theorem c5_token_cache_witness :
    (("T" : String) ≠ "") ∧ ((10000 : Int) ≠ 0) ∧
    (((1000 / 1000 : Nat) : Int) < 10000 - 60) ∧
    (((2000 / 1000 : Nat) : Int) < 10000 - 60) ∧
    ((generateToken (fun _ _ => "I") (fun _ => "S") 1000 ⟨some "T", some 10000⟩
        = ("T", ⟨some "T", some 10000⟩) ∧
      (generateToken (fun _ _ => "I") (fun _ => "S") 2000
         (generateToken (fun _ _ => "I") (fun _ => "S") 1000 ⟨some "T", some 10000⟩).2).1 = "T") ∧
     ((⟨none, none⟩ : TokenState).token = none →
        (generateToken (fun _ _ => "I") (fun _ => "S") 5000000 ⟨none, none⟩).2.tokenExpiry
          = some (((5000000 / 1000 : Nat) : Int) + 1200) ∧
        (generateToken (fun _ _ => "I") (fun _ => "S") 5000000 ⟨none, none⟩).1
          = (fun _ _ => "I") ((5000000 / 1000 : Nat) : Int)
              (((5000000 / 1000 : Nat) : Int) + 20 * 60) ++ "." ++
            (fun _ => "S") ((fun _ _ => "I") ((5000000 / 1000 : Nat) : Int)
              (((5000000 / 1000 : Nat) : Int) + 20 * 60))) ∧
     (∀ te2 : Int, (⟨none, none⟩ : TokenState).tokenExpiry = some te2 →
        te2 - 60 ≤ ((5000000 / 1000 : Nat) : Int) →
        (generateToken (fun _ _ => "I") (fun _ => "S") 5000000 ⟨none, none⟩).2.tokenExpiry
          = some (((5000000 / 1000 : Nat) : Int) + 1200) ∧
        (generateToken (fun _ _ => "I") (fun _ => "S") 5000000 ⟨none, none⟩).1
          = (fun _ _ => "I") ((5000000 / 1000 : Nat) : Int)
              (((5000000 / 1000 : Nat) : Int) + 20 * 60) ++ "." ++
            (fun _ => "S") ((fun _ _ => "I") ((5000000 / 1000 : Nat) : Int)
              (((5000000 / 1000 : Nat) : Int) + 20 * 60)))) :=
  ⟨by decide, by decide, by decide, by decide,
   c5_token_cache (fun _ _ => "I") (fun _ => "S") "T" 10000 1000 2000 5000000
     ⟨none, none⟩ (by decide) (by decide) (by decide) (by decide)⟩

/-! ## Claim C7 -/

/-- Claim C7: under the default retry policy, three consecutive 503 responses
followed by a 200 make `request` return the 200 response's payload after
exactly 3 retries, with every consecutive pair of retry delays inside
`[previous*2*0.7, previous*2*1.3]` and every delay at most the configured
10000 ms cap. -/
theorem c7_retry_backoff (α : Type) (responses : Nat → HttpResp α) (randv : Nat → ℚ)
    (h0 : (responses 0).status = 503) (h1 : (responses 1).status = 503)
    (h2 : (responses 2).status = 503) (h3 : (responses 3).status = 200)
    (hr : ∀ i, 0 ≤ randv i ∧ randv i < 1) :
    (request defaultRetryOptions responses randv).1 = .ok (some (responses 3).body) ∧
    (request defaultRetryOptions responses randv).2.length = 3 ∧
    List.Chain' withinBackoffWindow (request defaultRetryOptions responses randv).2 ∧
    ∀ d ∈ (request defaultRetryOptions responses randv).2,
      d ≤ defaultRetryOptions.maxDelayMs := by
  have e0 : calculateBackoff (randv 0) 0 defaultRetryOptions = 1000 + randv 0 * 300 := by
    unfold calculateBackoff defaultRetryOptions
    rw [min_eq_left (by nlinarith [(hr 0).1, (hr 0).2])]
    ring
  have e1 : calculateBackoff (randv 1) 1 defaultRetryOptions = 2000 + randv 1 * 600 := by
    unfold calculateBackoff defaultRetryOptions
    rw [min_eq_left (by nlinarith [(hr 1).1, (hr 1).2])]
    ring
  have e2 : calculateBackoff (randv 2) 2 defaultRetryOptions = 4000 + randv 2 * 1200 := by
    unfold calculateBackoff defaultRetryOptions
    rw [min_eq_left (by nlinarith [(hr 2).1, (hr 2).2])]
    ring
  have hreq : request defaultRetryOptions responses randv =
      (.ok (some (responses 3).body),
       [calculateBackoff (randv 0) 0 defaultRetryOptions,
        calculateBackoff (randv 1) 1 defaultRetryOptions,
        calculateBackoff (randv 2) 2 defaultRetryOptions]) := by
    unfold request
    show requestFuel defaultRetryOptions responses randv 4 0 [] = _
    rw [show (4 : Nat) = 3 + 1 from rfl, requestFuel]
    simp only [h0, defaultRetryOptions]
    norm_num
    rw [show (3 : Nat) = 2 + 1 from rfl, requestFuel]
    simp only [h1]
    norm_num
    rw [show (2 : Nat) = 1 + 1 from rfl, requestFuel]
    simp only [h2]
    norm_num
    rw [show (1 : Nat) = 0 + 1 from rfl, requestFuel]
    simp only [h3]
    norm_num
  rw [hreq]
  refine ⟨rfl, rfl, ?_, ?_⟩
  · rw [e0, e1, e2]
    refine List.chain'_cons.mpr ⟨?_, List.chain'_cons.mpr ⟨?_, List.chain'_singleton _⟩⟩
    · exact ⟨by nlinarith [(hr 0).1, (hr 0).2, (hr 1).1, (hr 1).2],
             by nlinarith [(hr 0).1, (hr 0).2, (hr 1).1, (hr 1).2]⟩
    · exact ⟨by nlinarith [(hr 1).1, (hr 1).2, (hr 2).1, (hr 2).2],
             by nlinarith [(hr 1).1, (hr 1).2, (hr 2).1, (hr 2).2]⟩
  · intro d hd
    simp only [List.mem_cons, List.not_mem_nil, or_false] at hd
    rcases hd with rfl | rfl | rfl <;>
      exact min_le_right _ _

/-- Response oracle for the C7 witness: three 503s then a 200. -/
def respW : Nat → HttpResp String :=
  fun i => if i < 3 then ⟨503, 0, "payload", "detail"⟩ else ⟨200, 0, "payload", "detail"⟩

/-- Witness for C7 with zero jitter draws. -/
theorem c7_retry_backoff_witness :
    ((respW 0).status = 503) ∧ ((respW 1).status = 503) ∧ ((respW 2).status = 503) ∧
    ((respW 3).status = 200) ∧ (∀ i : Nat, (0 : ℚ) ≤ (fun _ : Nat => (0 : ℚ)) i ∧ (fun _ : Nat => (0 : ℚ)) i < 1) ∧
    ((request defaultRetryOptions respW (fun _ => 0)).1 = .ok (some (respW 3).body) ∧
     (request defaultRetryOptions respW (fun _ => 0)).2.length = 3 ∧
     List.Chain' withinBackoffWindow (request defaultRetryOptions respW (fun _ => 0)).2 ∧
     ∀ d ∈ (request defaultRetryOptions respW (fun _ => 0)).2,
       d ≤ defaultRetryOptions.maxDelayMs) :=
  ⟨rfl, rfl, rfl, rfl, fun _ => ⟨le_refl _, by norm_num⟩,
   c7_retry_backoff String respW (fun _ => 0) rfl rfl rfl rfl
     (fun _ => ⟨le_refl _, by norm_num⟩)⟩

/-! ## Claim C4 -/

/-- An event that passes a commit identifier onward: for the claim, only the
commit-existence check and tag creation must receive a full hash. -/
def usesFullHash : Ev → Bool
  | .commitCheck s => isFullHex s
  | .createTag _ s _ => isFullHex s
  | _ => true

/-- Ref-resolution events. -/
def isResolveEv : Ev → Bool
  | .resolveRefCall _ => true
  | _ => false

/-- Counterexample to claim C4 as stated: the modular reconciler
`runReleaseSync` (src/lib/sync.js lines 34-54) never resolves a symbolic
commit reference — "develop" is not a 40-hex hash, yet it is passed directly
to the commit-existence check and to tag creation, with no resolution
call. -/
theorem c4_unresolved_ref_counterexample :
    isFullHex "develop" = false ∧
    runReleaseSync envRawRef =
      ⟨[.getLive, .validate "1.4", .tagQuery "v1.4-1400", .commitLookup "1400",
        .commitCheck "develop", .commitMsg "develop",
        .createTag "v1.4-1400" "develop" "Production release: version 1.4, build 1400",
        .findPR "develop"], .success⟩ ∧
    (runReleaseSync envRawRef).trace.all (fun e => !isResolveEv e) = true := by
  decide

/-- `mainSyncTail` always records the commit-existence check on the sha it
was given. -/
theorem mainSyncTail_mem_commitCheck (env : SyncEnv) (v bn tn sha : String)
    (base : List Ev) :
    Ev.commitCheck sha ∈ (mainSyncTail env v bn tn sha base).trace := by
  unfold mainSyncTail
  by_cases hc : env.commitExists sha = false
  · simp [hc]
  · by_cases hd : env.dryRun
    · simp [hc, hd]
    · cases hp : env.findPR sha <;> simp [hc, hd, hp]

/-- Every event `mainSyncTail` can append satisfies a predicate that holds
on the base trace and on each possible appended event. -/
theorem mainSyncTail_all (env : SyncEnv) (v bn tn sha : String) (base : List Ev)
    (p : Ev → Bool) (hbase : base.all p = true)
    (hcc : p (.commitCheck sha) = true) (hcm : p (.commitMsg sha) = true)
    (hct : p (.createTag tn sha (tagMsg v bn)) = true)
    (hpt : p (.pushTag tn) = true) (hfp : p (.findPR sha) = true)
    (hac : ∀ pr, p (.addComment pr (prComment bn v)) = true) :
    (mainSyncTail env v bn tn sha base).trace.all p = true := by
  unfold mainSyncTail
  by_cases hc : env.commitExists sha = false
  · simp [hc, List.all_append, hbase, hcc]
  · by_cases hd : env.dryRun
    · simp [hc, hd, List.all_append, hbase, hcc, hcm, hfp]
    · cases hp : env.findPR sha <;>
        simp [hc, hd, hp, List.all_append, hbase, hcc, hcm, hct, hpt, hfp, hac]

/-- Under the hypotheses of claim C4, the standalone flow reduces to the
resolution step. -/
theorem mainSync_resolve_step (env : SyncEnv) (sha : String)
    (h1 : env.liveStatus.live = true) (h2 : env.liveStatus.buildNumber ≠ "0")
    (h3 : versionValid env.liveStatus.version = true)
    (h4 : env.tagExists (tagNameOf env.liveStatus.version env.liveStatus.buildNumber) = false)
    (h5 : env.commitInfo.found = true) (h6 : env.commitInfo.commitSha = some sha)
    (h7 : sha ≠ "") (h8 : isFullHex sha = false) :
    mainSync env =
      match gitResolveRef env.revParse sha with
      | none =>
        ⟨[.getLive, .validate env.liveStatus.version, .fetchRepo,
          .tagQuery (tagNameOf env.liveStatus.version env.liveStatus.buildNumber),
          .commitLookup env.liveStatus.buildNumber, .resolveRefCall sha], .success⟩
      | some r =>
        mainSyncTail env env.liveStatus.version env.liveStatus.buildNumber
          (tagNameOf env.liveStatus.version env.liveStatus.buildNumber) r
          [.getLive, .validate env.liveStatus.version, .fetchRepo,
           .tagQuery (tagNameOf env.liveStatus.version env.liveStatus.buildNumber),
           .commitLookup env.liveStatus.buildNumber, .resolveRefCall sha] := by
  unfold mainSync
  simp [h1, h2, h3, h4, h5, h6, truthy, h7, h8]

/-- Claim C4 as amended: the standalone script's flow, for a found commit
reference that is not a full 40-hex hash, calls the resolver; the resolver
tries `git rev-parse <ref>` first and `git rev-parse origin/<ref>` only when
that fails; when neither resolves the run exits successfully with zero
mutating calls; and whenever `git rev-parse` yields only full hashes, every
commit-existence check and tag creation in the run receives a full hash.
The modular reconciler has no such step (see the counterexample). -/
theorem c4_ref_resolution_standalone (env : SyncEnv) (sha : String)
    (h1 : env.liveStatus.live = true) (h2 : env.liveStatus.buildNumber ≠ "0")
    (h3 : versionValid env.liveStatus.version = true)
    (h4 : env.tagExists (tagNameOf env.liveStatus.version env.liveStatus.buildNumber) = false)
    (h5 : env.commitInfo.found = true) (h6 : env.commitInfo.commitSha = some sha)
    (h7 : sha ≠ "") (h8 : isFullHex sha = false)
    (hor : ∀ s v, env.revParse s = some v → isFullHex v = true) :
    (Ev.resolveRefCall sha ∈ (mainSync env).trace) ∧
    (∀ v, env.revParse sha = some v → gitResolveRef env.revParse sha = some v) ∧
    (env.revParse sha = none →
       gitResolveRef env.revParse sha = env.revParse ("origin/" ++ sha)) ∧
    (env.revParse sha = none → env.revParse ("origin/" ++ sha) = none →
       (mainSync env).outcome = .success ∧ (mainSync env).trace.filter mutating = []) ∧
    (∀ v, gitResolveRef env.revParse sha = some v →
       Ev.commitCheck v ∈ (mainSync env).trace) ∧
    (mainSync env).trace.all usesFullHash = true := by
  have hstep := mainSync_resolve_step env sha h1 h2 h3 h4 h5 h6 h7 h8
  have hbaseAll :
      ([.getLive, .validate env.liveStatus.version, .fetchRepo,
        .tagQuery (tagNameOf env.liveStatus.version env.liveStatus.buildNumber),
        .commitLookup env.liveStatus.buildNumber,
        .resolveRefCall sha] : List Ev).all usesFullHash = true := by
    simp [usesFullHash]
  refine ⟨?_, ?_, ?_, ?_, ?_, ?_⟩
  · rw [hstep]
    cases hres : gitResolveRef env.revParse sha with
    | none => simp
    | some r =>
      simp only
      have := mainSyncTail_mem_commitCheck env env.liveStatus.version
        env.liveStatus.buildNumber
        (tagNameOf env.liveStatus.version env.liveStatus.buildNumber) r
        [.getLive, .validate env.liveStatus.version, .fetchRepo,
         .tagQuery (tagNameOf env.liveStatus.version env.liveStatus.buildNumber),
         .commitLookup env.liveStatus.buildNumber, .resolveRefCall sha]
      unfold mainSyncTail at this ⊢
      by_cases hc : env.commitExists r = false
      · simp [hc, List.mem_append]
      · by_cases hd : env.dryRun
        · simp [hc, hd, List.mem_append]
        · cases hp : env.findPR r <;> simp [hc, hd, hp, List.mem_append]
  · intro v hv
    unfold gitResolveRef
    rw [hv]
  · intro hnone
    unfold gitResolveRef
    rw [hnone]
  · intro hnone horig
    have hres : gitResolveRef env.revParse sha = none := by
      unfold gitResolveRef
      rw [hnone, horig]
    rw [hstep, hres]
    exact ⟨rfl, by simp [mutating, List.filter]⟩
  · intro v hv
    rw [hstep, hv]
    exact mainSyncTail_mem_commitCheck env _ _ _ v _
  · rw [hstep]
    cases hres : gitResolveRef env.revParse sha with
    | none => simpa using hbaseAll
    | some r =>
      have hrhex : isFullHex r = true := by
        cases hA : env.revParse sha with
        | some v =>
          have hg : gitResolveRef env.revParse sha = some v := by
            unfold gitResolveRef
            rw [hA]
          rw [hg] at hres
          injection hres with hvr
          subst hvr
          exact hor _ _ hA
        | none =>
          have hg : gitResolveRef env.revParse sha = env.revParse ("origin/" ++ sha) := by
            unfold gitResolveRef
            rw [hA]
          rw [hg] at hres
          exact hor _ _ hres
      exact mainSyncTail_all env _ _ _ r _ usesFullHash hbaseAll
        (by simp [usesFullHash, hrhex]) (by simp [usesFullHash])
        (by simp [usesFullHash, hrhex]) (by simp [usesFullHash])
        (by simp [usesFullHash]) (fun pr => by simp [usesFullHash])

/-- Environment for the C4 witness: commit reference "develop" resolves
against the remote-tracking branch to a full hash. -/
def envResolvable : SyncEnv :=
  ⟨⟨true, "1.4", "1400"⟩, fun _ => false, ⟨true, some "develop", none, none⟩,
   fun s => if s = "origin/develop"
            then some "0123456789abcdef0123456789abcdef01234567" else none,
   fun _ => true, fun _ => none, false⟩

/-- The witness environment's rev-parse oracle only yields full hashes. -/
theorem envResolvable_revParse_hex :
    ∀ s v, envResolvable.revParse s = some v → isFullHex v = true := by
  intro s v h
  by_cases hs : s = "origin/develop"
  · subst hs
    have h2 : some "0123456789abcdef0123456789abcdef01234567" = some v := h
    injection h2 with h3
    rw [← h3]
    decide
  · have hnone : envResolvable.revParse s = none := by
      simp only [envResolvable]
      rw [if_neg hs]
    rw [hnone] at h
    cases h

/-- Witness for the amended C4 at a concrete resolvable environment. -/
theorem c4_ref_resolution_standalone_witness :
    (envResolvable.liveStatus.live = true) ∧
    (envResolvable.liveStatus.buildNumber ≠ "0") ∧
    (versionValid envResolvable.liveStatus.version = true) ∧
    (envResolvable.tagExists
       (tagNameOf envResolvable.liveStatus.version envResolvable.liveStatus.buildNumber)
       = false) ∧
    (envResolvable.commitInfo.found = true) ∧
    (envResolvable.commitInfo.commitSha = some "develop") ∧
    (("develop" : String) ≠ "") ∧ (isFullHex "develop" = false) ∧
    (∀ s v, envResolvable.revParse s = some v → isFullHex v = true) ∧
    ((Ev.resolveRefCall "develop" ∈ (mainSync envResolvable).trace) ∧
     (∀ v, envResolvable.revParse "develop" = some v →
        gitResolveRef envResolvable.revParse "develop" = some v) ∧
     (envResolvable.revParse "develop" = none →
        gitResolveRef envResolvable.revParse "develop"
          = envResolvable.revParse ("origin/" ++ "develop")) ∧
     (envResolvable.revParse "develop" = none →
        envResolvable.revParse ("origin/" ++ "develop") = none →
        (mainSync envResolvable).outcome = .success ∧
        (mainSync envResolvable).trace.filter mutating = []) ∧
     (∀ v, gitResolveRef envResolvable.revParse "develop" = some v →
        Ev.commitCheck v ∈ (mainSync envResolvable).trace) ∧
     (mainSync envResolvable).trace.all usesFullHash = true) :=
  ⟨rfl, by decide, by decide, rfl, rfl, rfl, by decide, by decide,
   envResolvable_revParse_hex,
   c4_ref_resolution_standalone envResolvable "develop" rfl (by decide) (by decide) rfl rfl rfl
     (by decide) (by decide) envResolvable_revParse_hex⟩

/-! ## Claim C6 -/

theorem land128_eq_zero (n : Nat) (h : n < 128) : n.land 128 = 0 := by
  have h2 : n &&& 128 = 0 := by
    apply Nat.eq_of_testBit_eq
    intro i
    have h128 : (128 : Nat) = 2 ^ 7 := by norm_num
    simp only [Nat.testBit_and, Nat.zero_testBit, h128, Nat.testBit_two_pow]
    rcases eq_or_ne (7 : Nat) i with rfl | hi
    · simp [Nat.testBit_eq_false_of_lt (show n < 2 ^ 7 by omega)]
    · simp [hi]
  exact h2

theorem derEncode_shift (rB sB : List Nat) (n : Nat) :
    (derEncode rB sB)[n + 4]? = (rB ++ 0x02 :: sB.length :: sB)[n]? := by
  simp [derEncode]

/-- On any short-form two-integer encoding, `derToRaw` trims and pads the two
content-byte strings. -/
theorem derToRaw_derEncode (rB sB : List Nat) (hr : rB.length ≤ 33) (hs : sB.length ≤ 33) :
    derToRaw (derEncode rB sB) = .ok (pad32 (trimLoop rB) ++ pad32 (trimLoop sB)) := by
  have hL : (4 + rB.length + sB.length).land 128 = 0 := land128_eq_zero _ (by omega)
  have i0 : (derEncode rB sB)[0]? = some 0x30 := by simp [derEncode]
  have i1 : (derEncode rB sB)[1]? = some (4 + rB.length + sB.length) := by simp [derEncode]
  have i2 : (derEncode rB sB)[2]? = some 0x02 := by simp [derEncode]
  have i3 : (derEncode rB sB)[3]? = some rB.length := by simp [derEncode]
  have iMark : (derEncode rB sB)[4 + rB.length]? = some 0x02 := by
    rw [show 4 + rB.length = rB.length + 4 from by omega, derEncode_shift,
        List.getElem?_append_right (le_refl _)]
    simp
  have iSl : (derEncode rB sB)[4 + rB.length + 1]? = some sB.length := by
    rw [show 4 + rB.length + 1 = rB.length + 1 + 4 from by omega, derEncode_shift,
        List.getElem?_append_right (by omega)]
    simp
  have iR : ((derEncode rB sB).drop 4).take rB.length = rB := by
    simp [derEncode, List.take_left]
  have iS : ((derEncode rB sB).drop (4 + rB.length + 2)).take sB.length = sB := by
    have hd : (derEncode rB sB).drop (4 + rB.length + 2)
        = (rB ++ 0x02 :: sB.length :: sB).drop (rB.length + 2) := by
      rw [show 4 + rB.length + 2 = rB.length + 2 + 4 from by omega]
      simp [derEncode]
    rw [hd, List.drop_append 2]
    simp
  unfold derToRaw
  simp only [i0, i1, hL, ne_eq]
  norm_num
  simp only [i2, i3]
  norm_num
  simp only [iMark, iSl, iR, iS]
  norm_num

theorem trimLoop_of_le (bs : List Nat) (h : bs.length ≤ 32) : trimLoop bs = bs := by
  cases bs with
  | nil => rfl
  | cons b t =>
    unfold trimLoop
    rw [if_neg]
    rintro ⟨-, hlen⟩
    simp only [List.length_cons] at h
    omega

theorem beVal_cons_zero (t : List Nat) : beVal (0 :: t) = beVal t := by
  simp [beVal]

/-- For content of at most 33 bytes whose 33-byte form starts with a zero
byte (i.e. a value below 2^256), the trim loop leaves at most 32 bytes and
preserves the big-endian value. -/
theorem trimLoop_len_le (bs : List Nat) (h2 : bs.length ≤ 33)
    (h3 : bs.length = 33 → bs.head? = some 0) :
    (trimLoop bs).length ≤ 32 ∧ beVal (trimLoop bs) = beVal bs := by
  rcases Nat.lt_or_ge bs.length 33 with hlt | hge
  · rw [trimLoop_of_le bs (by omega)]
    exact ⟨by omega, rfl⟩
  · have h33 : bs.length = 33 := by omega
    cases bs with
    | nil => simp at h33
    | cons b t =>
      have hb : b = 0 := by
        have := h3 h33
        simp at this
        exact this
      subst hb
      have ht : t.length = 32 := by simp at h33; omega
      unfold trimLoop
      rw [if_pos ⟨rfl, by omega⟩]
      rw [trimLoop_of_le t (by omega), beVal_cons_zero]
      exact ⟨by omega, rfl⟩

theorem pad32_length (bs : List Nat) (h : bs.length ≤ 32) : (pad32 bs).length = 32 := by
  simp [pad32]
  omega

theorem beVal_pad32 (bs : List Nat) : beVal (pad32 bs) = beVal bs := by
  have hz : ∀ k : Nat, (List.replicate k 0).foldl (fun a b => a * 256 + b) 0 = 0 := by
    intro k
    induction k with
    | zero => rfl
    | succ n ih => simpa [List.replicate_succ] using ih
  simp [pad32, beVal, List.foldl_append, hz]

/-- Counterexample to claim C6 as stated: the 8-byte input
`30 06 02 01 05 02 05 07` declares a 5-byte s integer but provides only one
byte, so it is not a well-formed two-integer encoding, yet `derToRaw`
succeeds (zero-padding the truncated integer) instead of failing with the
malformed-signature error. -/
theorem c6_malformed_accepted_counterexample :
    wellFormedDer [0x30, 6, 0x02, 1, 5, 0x02, 5, 7] = false ∧
    derToRaw [0x30, 6, 0x02, 1, 5, 0x02, 5, 7] =
      .ok (List.replicate 31 0 ++ [5] ++ (List.replicate 31 0 ++ [7])) := by
  constructor
  · decide
  · rfl

/-- Claim C6 as amended: for every well-formed DER ECDSA signature encoding
integers r and s below 2^256 (content bytes `rB`, `sB`, possibly with
leading zero bytes), `derToRaw` returns exactly 64 bytes whose first 32
bytes are r right-aligned and left-zero-padded and whose last 32 bytes are s
right-aligned and left-zero-padded (stated via lengths and big-endian
values); an input whose leading tag byte is not 0x30 fails with the
malformed-signature error, but not every ill-formed encoding is rejected
(see the counterexample). -/
theorem c6_derToRaw_layout (rB sB : List Nat)
    (hr1 : 1 ≤ rB.length) (hr2 : rB.length ≤ 33) (hr3 : rB.length = 33 → rB.head? = some 0)
    (hs1 : 1 ≤ sB.length) (hs2 : sB.length ≤ 33) (hs3 : sB.length = 33 → sB.head? = some 0) :
    derToRaw (derEncode rB sB) = .ok (pad32 (trimLoop rB) ++ pad32 (trimLoop sB)) ∧
    (pad32 (trimLoop rB) ++ pad32 (trimLoop sB)).length = 64 ∧
    (pad32 (trimLoop rB) ++ pad32 (trimLoop sB)).take 32 = pad32 (trimLoop rB) ∧
    (pad32 (trimLoop rB) ++ pad32 (trimLoop sB)).drop 32 = pad32 (trimLoop sB) ∧
    (pad32 (trimLoop rB)).length = 32 ∧ beVal (pad32 (trimLoop rB)) = beVal rB ∧
    (pad32 (trimLoop sB)).length = 32 ∧ beVal (pad32 (trimLoop sB)) = beVal sB ∧
    (∀ der : List Nat, der[0]? ≠ some 0x30 →
       derToRaw der = .error "Invalid DER signature") := by
  obtain ⟨hrl, hrv⟩ := trimLoop_len_le rB hr2 hr3
  obtain ⟨hsl, hsv⟩ := trimLoop_len_le sB hs2 hs3
  have pr := pad32_length _ hrl
  have ps := pad32_length _ hsl
  refine ⟨derToRaw_derEncode rB sB hr2 hs2, ?_, ?_, ?_, pr, ?_, ps, ?_, ?_⟩
  · simp [List.length_append, pr, ps]
  · rw [show (32 : Nat) = (pad32 (trimLoop rB)).length from pr.symm, List.take_left]
  · rw [show (32 : Nat) = (pad32 (trimLoop rB)).length from pr.symm, List.drop_left]
  · rw [beVal_pad32, hrv]
  · rw [beVal_pad32, hsv]
  · intro der h
    unfold derToRaw
    rw [if_pos h]

/-- Witness for the amended C6: r content bytes `[0, 255]` (a leading zero
byte) and s content `[7]`. -/
theorem c6_derToRaw_layout_witness :
    (1 ≤ ([0, 255] : List Nat).length) ∧ (([0, 255] : List Nat).length ≤ 33) ∧
    (([0, 255] : List Nat).length = 33 → ([0, 255] : List Nat).head? = some 0) ∧
    (1 ≤ ([7] : List Nat).length) ∧ (([7] : List Nat).length ≤ 33) ∧
    (([7] : List Nat).length = 33 → ([7] : List Nat).head? = some 0) ∧
    (derToRaw (derEncode [0, 255] [7])
       = .ok (pad32 (trimLoop [0, 255]) ++ pad32 (trimLoop [7])) ∧
     (pad32 (trimLoop ([0, 255] : List Nat)) ++ pad32 (trimLoop [7])).length = 64 ∧
     (pad32 (trimLoop ([0, 255] : List Nat)) ++ pad32 (trimLoop [7])).take 32
       = pad32 (trimLoop [0, 255]) ∧
     (pad32 (trimLoop ([0, 255] : List Nat)) ++ pad32 (trimLoop [7])).drop 32
       = pad32 (trimLoop [7]) ∧
     (pad32 (trimLoop ([0, 255] : List Nat))).length = 32 ∧
     beVal (pad32 (trimLoop [0, 255])) = beVal [0, 255] ∧
     (pad32 (trimLoop ([7] : List Nat))).length = 32 ∧
     beVal (pad32 (trimLoop [7])) = beVal [7] ∧
     (∀ der : List Nat, der[0]? ≠ some 0x30 →
        derToRaw der = .error "Invalid DER signature")) :=
  ⟨by decide, by decide, by decide, by decide, by decide, by decide,
   c6_derToRaw_layout [0, 255] [7] (by decide) (by decide) (by decide)
     (by decide) (by decide) (by decide)⟩

end Merge4
